import Mathlib

/-!
# Verification of `client/client.go` (opsgenie-go-sdk)

A shallow embedding of package `client`: the root `OpsGenieClient`, its three
setters and its four derivation methods (`Alert`, `Heartbeat`, `Integration`,
`Policy`).

Modelling conventions.

* A Go method with receiver `cli *OpsGenieClient` becomes a function that takes
  the value of `*cli` before the call and returns the value of `*cli` after the
  call as the first component of its result.
* A nullable pointer `*T` is `Option T`; `nil` is `none`.
* A Go result `(*T, error)` is the pair `Option T × Option error`; a `nil`
  error is `none`.
* Go strings are immutable values, so a derived client, which holds two
  strings and nothing else that this file writes, is a value.
* `ClientProxyConfiguration`, `HttpTransportSettings` and the method
  `ClientProxyConfiguration.ToString` are declared outside `client.go`; they are
  parameters of the development.
-/

namespace client

/-- Go's builtin `error` as produced by `errors.New`: an error value is its message text. -/
structure error where
  text : String
deriving DecidableEq

/-- Go's `errors.New`. -/
def errors.New (text : String) : error := ⟨text⟩

/-- The endpoint constant of `client.go`. -/
def ENDPOINT_URL : String := "https://api.opsgenie.com"

/-- Modelled from the spec: the struct `OpsGenieAlertClient` is declared outside
`client.go`. The spec's DerivedClient holds `apiKey: string` and `proxy: string`,
which are the two fields `Alert` assigns. -/
structure OpsGenieAlertClient where
  apiKey : String
  proxy : String
deriving DecidableEq

/-- Modelled from the spec: the struct `OpsGenieHeartbeatClient` is declared outside
`client.go`. The spec's DerivedClient holds `apiKey: string` and `proxy: string`,
which are the two fields `Heartbeat` assigns. -/
structure OpsGenieHeartbeatClient where
  apiKey : String
  proxy : String
deriving DecidableEq

/-- Modelled from the spec: the struct `OpsGenieIntegrationClient` is declared outside
`client.go`. The spec's DerivedClient holds `apiKey: string` and `proxy: string`,
which are the two fields `Integration` assigns. -/
structure OpsGenieIntegrationClient where
  apiKey : String
  proxy : String
deriving DecidableEq

/-- Modelled from the spec: the struct `OpsGeniePolicyClient` is declared outside
`client.go`. The spec's DerivedClient holds `apiKey: string` and `proxy: string`,
which are the two fields `Policy` assigns. -/
structure OpsGeniePolicyClient where
  apiKey : String
  proxy : String
deriving DecidableEq

/-- Go's `new (OpsGenieAlertClient)`: every field has its zero value. -/
def OpsGenieAlertClient.new : OpsGenieAlertClient := ⟨"", ""⟩

/-- Go's `new (OpsGenieHeartbeatClient)`: every field has its zero value. -/
def OpsGenieHeartbeatClient.new : OpsGenieHeartbeatClient := ⟨"", ""⟩

/-- Go's `new (OpsGenieIntegrationClient)`: every field has its zero value. -/
def OpsGenieIntegrationClient.new : OpsGenieIntegrationClient := ⟨"", ""⟩

/-- Go's `new (OpsGeniePolicyClient)`: every field has its zero value. -/
def OpsGeniePolicyClient.new : OpsGeniePolicyClient := ⟨"", ""⟩

/-- The struct `OpsGenieClient` of `client.go`, over the two externally declared
configuration types. -/
structure OpsGenieClient (ClientProxyConfiguration HttpTransportSettings : Type) where
  proxy : Option ClientProxyConfiguration
  httpTransportSettings : Option HttpTransportSettings
  apiKey : String

section Methods

variable {ClientProxyConfiguration HttpTransportSettings : Type}

/-- The zero value of `OpsGenieClient` (what `new(OpsGenieClient)` points to). -/
def OpsGenieClient.new : OpsGenieClient ClientProxyConfiguration HttpTransportSettings :=
  { proxy := none, httpTransportSettings := none, apiKey := "" }

/-- The method `SetClientProxyConfiguration`: `cli.proxy = conf`. -/
def SetClientProxyConfiguration
    (cli : OpsGenieClient ClientProxyConfiguration HttpTransportSettings)
    (conf : Option ClientProxyConfiguration) :
    OpsGenieClient ClientProxyConfiguration HttpTransportSettings :=
  { cli with proxy := conf }

/-- The method `SetHttpTransportSettings`: `cli.httpTransportSettings = settings`. -/
def SetHttpTransportSettings
    (cli : OpsGenieClient ClientProxyConfiguration HttpTransportSettings)
    (settings : Option HttpTransportSettings) :
    OpsGenieClient ClientProxyConfiguration HttpTransportSettings :=
  { cli with httpTransportSettings := settings }

/-- The method `SetApiKey`: rejects the empty key, otherwise stores it. -/
def SetApiKey
    (cli : OpsGenieClient ClientProxyConfiguration HttpTransportSettings)
    (key : String) :
    OpsGenieClient ClientProxyConfiguration HttpTransportSettings × Option error :=
  if key = "" then
    (cli, some (errors.New "API Key can not be empty"))
  else
    ({ cli with apiKey := key }, none)

variable (ToString : ClientProxyConfiguration → String)

/-- The method `Alert`. -/
def Alert
    (cli : OpsGenieClient ClientProxyConfiguration HttpTransportSettings) :
    OpsGenieClient ClientProxyConfiguration HttpTransportSettings ×
      Option OpsGenieAlertClient × Option error :=
  if cli.apiKey = "" then
    (cli, none, some (errors.New "API Key should be set first"))
  else
    let alertClient := OpsGenieAlertClient.new
    let alertClient := { alertClient with apiKey := cli.apiKey }
    let alertClient :=
      match cli.proxy with
      | some p => { alertClient with proxy := ToString p }
      | none => alertClient
    (cli, some alertClient, none)

/-- The method `Heartbeat`. -/
def Heartbeat
    (cli : OpsGenieClient ClientProxyConfiguration HttpTransportSettings) :
    OpsGenieClient ClientProxyConfiguration HttpTransportSettings ×
      Option OpsGenieHeartbeatClient × Option error :=
  if cli.apiKey = "" then
    (cli, none, some (errors.New "API Key should be set first"))
  else
    let heartbeatClient := OpsGenieHeartbeatClient.new
    let heartbeatClient := { heartbeatClient with apiKey := cli.apiKey }
    let heartbeatClient :=
      match cli.proxy with
      | some p => { heartbeatClient with proxy := ToString p }
      | none => heartbeatClient
    (cli, some heartbeatClient, none)

/-- The method `Integration`. -/
def Integration
    (cli : OpsGenieClient ClientProxyConfiguration HttpTransportSettings) :
    OpsGenieClient ClientProxyConfiguration HttpTransportSettings ×
      Option OpsGenieIntegrationClient × Option error :=
  if cli.apiKey = "" then
    (cli, none, some (errors.New "API Key should be set first"))
  else
    let integrationClient := OpsGenieIntegrationClient.new
    let integrationClient := { integrationClient with apiKey := cli.apiKey }
    let integrationClient :=
      match cli.proxy with
      | some p => { integrationClient with proxy := ToString p }
      | none => integrationClient
    (cli, some integrationClient, none)

/-- The method `Policy`. -/
def Policy
    (cli : OpsGenieClient ClientProxyConfiguration HttpTransportSettings) :
    OpsGenieClient ClientProxyConfiguration HttpTransportSettings ×
      Option OpsGeniePolicyClient × Option error :=
  if cli.apiKey = "" then
    (cli, none, some (errors.New "API Key should be set first"))
  else
    let policyClient := OpsGeniePolicyClient.new
    let policyClient := { policyClient with apiKey := cli.apiKey }
    let policyClient :=
      match cli.proxy with
      | some p => { policyClient with proxy := ToString p }
      | none => policyClient
    (cli, some policyClient, none)

/-- One call on the root client together with its arguments. -/
inductive Call (ClientProxyConfiguration HttpTransportSettings : Type) where
  | SetClientProxyConfiguration (conf : Option ClientProxyConfiguration)
  | SetHttpTransportSettings (settings : Option HttpTransportSettings)
  | SetApiKey (key : String)
  | Alert
  | Heartbeat
  | Integration
  | Policy

/-- What a call hands back to its caller. -/
inductive Return where
  | SetClientProxyConfiguration
  | SetHttpTransportSettings
  | SetApiKey (err : Option error)
  | Alert (c : Option OpsGenieAlertClient) (err : Option error)
  | Heartbeat (c : Option OpsGenieHeartbeatClient) (err : Option error)
  | Integration (c : Option OpsGenieIntegrationClient) (err : Option error)
  | Policy (c : Option OpsGeniePolicyClient) (err : Option error)
deriving DecidableEq

/-- One step of the root client: perform the call on `cli`, giving the root after
the call and what the caller receives. -/
def step (cli : OpsGenieClient ClientProxyConfiguration HttpTransportSettings) :
    Call ClientProxyConfiguration HttpTransportSettings →
      OpsGenieClient ClientProxyConfiguration HttpTransportSettings × Return
  | .SetClientProxyConfiguration conf =>
      (SetClientProxyConfiguration cli conf, .SetClientProxyConfiguration)
  | .SetHttpTransportSettings settings =>
      (SetHttpTransportSettings cli settings, .SetHttpTransportSettings)
  | .SetApiKey key => ((SetApiKey cli key).1, .SetApiKey (SetApiKey cli key).2)
  | .Alert =>
      ((Alert ToString cli).1, .Alert (Alert ToString cli).2.1 (Alert ToString cli).2.2)
  | .Heartbeat =>
      ((Heartbeat ToString cli).1,
        .Heartbeat (Heartbeat ToString cli).2.1 (Heartbeat ToString cli).2.2)
  | .Integration =>
      ((Integration ToString cli).1,
        .Integration (Integration ToString cli).2.1 (Integration ToString cli).2.2)
  | .Policy =>
      ((Policy ToString cli).1, .Policy (Policy ToString cli).2.1 (Policy ToString cli).2.2)

/-- A finite sequence of calls performed in order on one root: the root at the
end and the list of what each call handed back. -/
def run (cli : OpsGenieClient ClientProxyConfiguration HttpTransportSettings) :
    List (Call ClientProxyConfiguration HttpTransportSettings) →
      OpsGenieClient ClientProxyConfiguration HttpTransportSettings × List Return
  | [] => (cli, [])
  | c :: cs =>
      let r := step ToString cli c
      let rs := run r.1 cs
      (rs.1, r.2 :: rs.2)

/-- Whether a call is one of the four derivation methods. -/
def Call.isDerivation : Call ClientProxyConfiguration HttpTransportSettings → Bool
  | .Alert => true
  | .Heartbeat => true
  | .Integration => true
  | .Policy => true
  | _ => false

/-- The error a call handed back: `none` for a nil error and for the two setters
that return nothing. -/
def Return.err : Return → Option error
  | .SetClientProxyConfiguration => none
  | .SetHttpTransportSettings => none
  | .SetApiKey err => err
  | .Alert _ err => err
  | .Heartbeat _ err => err
  | .Integration _ err => err
  | .Policy _ err => err

/-- The content `(apiKey, proxy)` of the client a call handed back, `none` when it
handed back a nil client or is not a derivation. -/
def Return.client : Return → Option (String × String)
  | .Alert (some c) _ => some (c.apiKey, c.proxy)
  | .Heartbeat (some c) _ => some (c.apiKey, c.proxy)
  | .Integration (some c) _ => some (c.apiKey, c.proxy)
  | .Policy (some c) _ => some (c.apiKey, c.proxy)
  | _ => none

/-- The logical state `Unconfigured` of the root: the stored apiKey is empty. -/
def Unconfigured (cli : OpsGenieClient ClientProxyConfiguration HttpTransportSettings) : Prop :=
  cli.apiKey = ""

/-- The logical state `Configured` of the root: the stored apiKey is non-empty. -/
def Configured (cli : OpsGenieClient ClientProxyConfiguration HttpTransportSettings) : Prop :=
  cli.apiKey ≠ ""

instance (cli : OpsGenieClient ClientProxyConfiguration HttpTransportSettings) :
    Decidable (Unconfigured cli) :=
  inferInstanceAs (Decidable (cli.apiKey = ""))

instance (cli : OpsGenieClient ClientProxyConfiguration HttpTransportSettings) :
    Decidable (Configured cli) :=
  inferInstanceAs (Decidable (cli.apiKey ≠ ""))

/-- The key a call stored, read off the call and what it handed back: the argument
of a `SetApiKey` call that returned a nil error, `none` for every other call. -/
def succeededKey :
    Call ClientProxyConfiguration HttpTransportSettings → Return → Option String
  | .SetApiKey key, .SetApiKey none => some key
  | _, _ => none

/-- The argument of the most recent `SetApiKey` call that succeeded, in a history
of calls each paired with what it handed back, oldest first; `none` when no
`SetApiKey` call of the history succeeded. This definition follows the wording of
the property about sequences of calls, not the source. -/
def lastSucceededKey :
    List (Call ClientProxyConfiguration HttpTransportSettings × Return) → Option String
  | [] => none
  | (c, r) :: rest =>
    match lastSucceededKey rest with
    | some key => some key
    | none => succeededKey c r

/-- The apiKey a root stores, `none` when it is the empty string. -/
def storedKey (cli : OpsGenieClient ClientProxyConfiguration HttpTransportSettings) :
    Option String :=
  if cli.apiKey = "" then none else some cli.apiKey

end Methods

/-- A sample proxy configuration, used to instantiate the externally declared
`ClientProxyConfiguration` at concrete inputs: a host and a port. -/
structure SampleProxy where
  Host : String
  Port : String
deriving DecidableEq

/-- A sample serialisation for `SampleProxy`. -/
def SampleProxy.ToString (p : SampleProxy) : String :=
  "http://" ++ p.Host ++ ":" ++ p.Port

/-- A sample root: apiKey `abc` and a proxy that serialises to `http://proxy:8080`. -/
def sampleRoot : OpsGenieClient SampleProxy Nat :=
  { proxy := some ⟨"proxy", "8080"⟩, httpTransportSettings := none, apiKey := "abc" }

/-- The zero-value root over the sample configuration types. -/
def sampleNew : OpsGenieClient SampleProxy Nat := OpsGenieClient.new

/-- A sample sequence of calls in which no `SetApiKey` call succeeds. -/
def sampleCallsNoKey : List (Call SampleProxy Nat) :=
  [.SetClientProxyConfiguration (some ⟨"proxy", "8080"⟩), .SetApiKey "", .Alert,
    .SetHttpTransportSettings (some 30), .Heartbeat, .SetApiKey "", .Policy]

/-- A sample sequence of calls with two successful `SetApiKey` calls, a rejected one
and setter calls in between, ending in a derivation. -/
def sampleCallsTwoKeys : List (Call SampleProxy Nat) :=
  [.SetApiKey "k1", .Alert, .SetClientProxyConfiguration (some ⟨"proxy", "8080"⟩),
    .SetApiKey "k2", .SetApiKey "", .SetHttpTransportSettings (some 30), .Heartbeat]

/-- The sample root with transport settings configured. -/
def sampleRootWithSettings : OpsGenieClient SampleProxy Nat :=
  SetHttpTransportSettings sampleRoot (some 30)

section Lemmas

variable {ClientProxyConfiguration HttpTransportSettings : Type}
variable (ToString : ClientProxyConfiguration → String)

/-- A step from a root with an empty apiKey either is a `SetApiKey` call that
returned no error, or ends in a root with an empty apiKey. -/
theorem step_apiKey_empty
    (cli : OpsGenieClient ClientProxyConfiguration HttpTransportSettings)
    (call : Call ClientProxyConfiguration HttpTransportSettings)
    (h : cli.apiKey = "") :
    (step ToString cli call).2 = Return.SetApiKey none ∨
      (step ToString cli call).1.apiKey = "" := by
  cases call with
  | SetApiKey key =>
    by_cases hk : key = ""
    · right; simp [step, SetApiKey, hk, h]
    · left; simp [step, SetApiKey, hk]
  | _ =>
    right
    simp [step, SetClientProxyConfiguration, SetHttpTransportSettings, Alert, Heartbeat,
      Integration, Policy, h]

/-- A run in which no `SetApiKey` call returned a nil error keeps an empty apiKey
empty. -/
theorem run_apiKey_empty
    (calls : List (Call ClientProxyConfiguration HttpTransportSettings)) :
    ∀ cli : OpsGenieClient ClientProxyConfiguration HttpTransportSettings,
      cli.apiKey = "" →
      (∀ r ∈ (run ToString cli calls).2, r ≠ Return.SetApiKey none) →
      (run ToString cli calls).1.apiKey = "" := by
  induction calls with
  | nil => intro cli h _; simpa [run] using h
  | cons c cs ih =>
    intro cli h hr
    simp only [run, List.mem_cons, forall_eq_or_imp] at hr ⊢
    rcases step_apiKey_empty ToString cli c h with h1 | h1
    · exact absurd h1 hr.1
    · exact ih _ h1 hr.2

/-- A step from a root with a non-empty apiKey ends in a root with a non-empty
apiKey. -/
theorem step_apiKey_ne_empty
    (cli : OpsGenieClient ClientProxyConfiguration HttpTransportSettings)
    (call : Call ClientProxyConfiguration HttpTransportSettings)
    (h : cli.apiKey ≠ "") :
    (step ToString cli call).1.apiKey ≠ "" := by
  cases call with
  | SetApiKey key =>
    by_cases hk : key = "" <;> simp [step, SetApiKey, hk, h]
  | _ =>
    simp [step, SetClientProxyConfiguration, SetHttpTransportSettings, Alert, Heartbeat,
      Integration, Policy, h]

/-- A run from a root with a non-empty apiKey ends in a root with a non-empty
apiKey. -/
theorem run_apiKey_ne_empty
    (calls : List (Call ClientProxyConfiguration HttpTransportSettings)) :
    ∀ cli : OpsGenieClient ClientProxyConfiguration HttpTransportSettings,
      cli.apiKey ≠ "" → (run ToString cli calls).1.apiKey ≠ "" := by
  induction calls with
  | nil => intro cli h; simpa [run] using h
  | cons c cs ih =>
    intro cli h
    simp only [run]
    exact ih _ (step_apiKey_ne_empty ToString cli c h)

/-- The key stored after a step is the key the call stored, when it stored one, and
the key stored before the step otherwise. -/
theorem storedKey_step
    (cli : OpsGenieClient ClientProxyConfiguration HttpTransportSettings)
    (call : Call ClientProxyConfiguration HttpTransportSettings) :
    storedKey (step ToString cli call).1 =
      match succeededKey call (step ToString cli call).2 with
      | some key => some key
      | none => storedKey cli := by
  cases call with
  | SetApiKey key =>
    by_cases hk : key = "" <;> simp [step, SetApiKey, hk, succeededKey, storedKey]
  | _ =>
    by_cases h : cli.apiKey = "" <;>
      simp [step, SetClientProxyConfiguration, SetHttpTransportSettings, Alert, Heartbeat,
        Integration, Policy, h, succeededKey, storedKey]

/-- A client handed back by a step carries the key the root stored before it. -/
theorem step_client_storedKey
    (cli : OpsGenieClient ClientProxyConfiguration HttpTransportSettings)
    (call : Call ClientProxyConfiguration HttpTransportSettings) (a p : String)
    (h : (step ToString cli call).2.client = some (a, p)) :
    a ≠ "" ∧ storedKey cli = some a := by
  obtain ⟨proxy, settings, key⟩ := cli
  by_cases hk : key = "" <;> cases call <;> cases proxy <;>
    simp_all [step, Alert, Heartbeat, Integration, Policy, Return.client, storedKey]

/-- In a run from any root, a client handed back at position `i` carries the
argument of the most recent `SetApiKey` call that succeeded before position `i`,
or the key the root stored at the start when there is no such call. -/
theorem run_client_lastSucceededKey
    (calls : List (Call ClientProxyConfiguration HttpTransportSettings)) :
    ∀ (cli : OpsGenieClient ClientProxyConfiguration HttpTransportSettings) (i : Nat)
      (r : Return) (a p : String),
      (run ToString cli calls).2[i]? = some r → r.client = some (a, p) →
      a ≠ "" ∧
      (match lastSucceededKey ((calls.zip (run ToString cli calls).2).take i) with
        | some key => some key
        | none => storedKey cli) = some a := by
  induction calls with
  | nil => intro cli i r a p hr; simp [run] at hr
  | cons c cs ih =>
    intro cli i r a p hr hc
    cases i with
    | zero =>
      simp only [run, List.getElem?_cons_zero, Option.some.injEq] at hr
      subst hr
      simpa [lastSucceededKey] using step_client_storedKey ToString cli c a p hc
    | succ j =>
      simp only [run, List.getElem?_cons_succ] at hr
      have h := ih (step ToString cli c).1 j r a p hr hc
      refine ⟨h.1, ?_⟩
      have h2 := h.2
      rw [storedKey_step] at h2
      show (match
          (match lastSucceededKey
              ((cs.zip (run ToString (step ToString cli c).1 cs).2).take j) with
            | some key => some key
            | none => succeededKey c (step ToString cli c).2) with
        | some key => some key
        | none => storedKey cli) = some a
      generalize lastSucceededKey
        ((cs.zip (run ToString (step ToString cli c).1 cs).2).take j) = l at h2 ⊢
      cases l <;> exact h2

end Lemmas

section Theorems

variable {ClientProxyConfiguration HttpTransportSettings : Type}
variable (ToString : ClientProxyConfiguration → String)

/-- C1: each of `Alert`, `Heartbeat`, `Integration` and `Policy` returns an error
exactly when the stored apiKey is empty, and returns a client exactly when it
returns no error (so an error comes with a nil client, and a nil error with a
client). -/
theorem derive_error_iff_apiKey_empty
    (cli : OpsGenieClient ClientProxyConfiguration HttpTransportSettings) :
    (((Alert ToString cli).2.2 ≠ none ↔ cli.apiKey = "") ∧
      ((Alert ToString cli).2.1 = none ↔ (Alert ToString cli).2.2 ≠ none) ∧
      ((Alert ToString cli).2.1 ≠ none ↔ (Alert ToString cli).2.2 = none)) ∧
    (((Heartbeat ToString cli).2.2 ≠ none ↔ cli.apiKey = "") ∧
      ((Heartbeat ToString cli).2.1 = none ↔ (Heartbeat ToString cli).2.2 ≠ none) ∧
      ((Heartbeat ToString cli).2.1 ≠ none ↔ (Heartbeat ToString cli).2.2 = none)) ∧
    (((Integration ToString cli).2.2 ≠ none ↔ cli.apiKey = "") ∧
      ((Integration ToString cli).2.1 = none ↔ (Integration ToString cli).2.2 ≠ none) ∧
      ((Integration ToString cli).2.1 ≠ none ↔ (Integration ToString cli).2.2 = none)) ∧
    (((Policy ToString cli).2.2 ≠ none ↔ cli.apiKey = "") ∧
      ((Policy ToString cli).2.1 = none ↔ (Policy ToString cli).2.2 ≠ none) ∧
      ((Policy ToString cli).2.1 ≠ none ↔ (Policy ToString cli).2.2 = none)) := by
  by_cases h : cli.apiKey = "" <;> simp [Alert, Heartbeat, Integration, Policy, h]

/-- C2: on a root with non-empty apiKey, each of `Alert`, `Heartbeat`,
`Integration` and `Policy` returns a client whose apiKey is the root's apiKey and
whose proxy is `P.ToString()` when the root holds a proxy configuration `P` and the
empty string when the root holds none. -/
theorem derive_copies_apiKey_and_proxy
    (cli : OpsGenieClient ClientProxyConfiguration HttpTransportSettings)
    (h : cli.apiKey ≠ "") :
    (∃ c, (Alert ToString cli).2.1 = some c ∧ c.apiKey = cli.apiKey ∧
      (∀ P, cli.proxy = some P → c.proxy = ToString P) ∧
      (cli.proxy = none → c.proxy = "")) ∧
    (∃ c, (Heartbeat ToString cli).2.1 = some c ∧ c.apiKey = cli.apiKey ∧
      (∀ P, cli.proxy = some P → c.proxy = ToString P) ∧
      (cli.proxy = none → c.proxy = "")) ∧
    (∃ c, (Integration ToString cli).2.1 = some c ∧ c.apiKey = cli.apiKey ∧
      (∀ P, cli.proxy = some P → c.proxy = ToString P) ∧
      (cli.proxy = none → c.proxy = "")) ∧
    (∃ c, (Policy ToString cli).2.1 = some c ∧ c.apiKey = cli.apiKey ∧
      (∀ P, cli.proxy = some P → c.proxy = ToString P) ∧
      (cli.proxy = none → c.proxy = "")) := by
  obtain ⟨proxy, settings, key⟩ := cli
  cases proxy <;>
    simp_all [Alert, Heartbeat, Integration, Policy, OpsGenieAlertClient.new,
      OpsGenieHeartbeatClient.new, OpsGenieIntegrationClient.new, OpsGeniePolicyClient.new]

/-- C2 at a concrete root: apiKey `abc` and a proxy serialising to
`http://proxy:8080` give an alert client with exactly these two strings. -/
theorem derive_copies_apiKey_and_proxy_witness :
    sampleRoot.apiKey ≠ "" ∧
    ((∃ c, (Alert SampleProxy.ToString sampleRoot).2.1 = some c ∧
        c.apiKey = sampleRoot.apiKey ∧
        (∀ P, sampleRoot.proxy = some P → c.proxy = SampleProxy.ToString P) ∧
        (sampleRoot.proxy = none → c.proxy = "")) ∧
      (∃ c, (Heartbeat SampleProxy.ToString sampleRoot).2.1 = some c ∧
        c.apiKey = sampleRoot.apiKey ∧
        (∀ P, sampleRoot.proxy = some P → c.proxy = SampleProxy.ToString P) ∧
        (sampleRoot.proxy = none → c.proxy = "")) ∧
      (∃ c, (Integration SampleProxy.ToString sampleRoot).2.1 = some c ∧
        c.apiKey = sampleRoot.apiKey ∧
        (∀ P, sampleRoot.proxy = some P → c.proxy = SampleProxy.ToString P) ∧
        (sampleRoot.proxy = none → c.proxy = "")) ∧
      (∃ c, (Policy SampleProxy.ToString sampleRoot).2.1 = some c ∧
        c.apiKey = sampleRoot.apiKey ∧
        (∀ P, sampleRoot.proxy = some P → c.proxy = SampleProxy.ToString P) ∧
        (sampleRoot.proxy = none → c.proxy = ""))) ∧
    (Alert SampleProxy.ToString sampleRoot).2.1 = some ⟨"abc", "http://proxy:8080"⟩ :=
  ⟨by decide, derive_copies_apiKey_and_proxy SampleProxy.ToString sampleRoot (by decide),
    by decide⟩

/-- C3: `SetApiKey(key)` returns an error exactly when `key` is empty; when it
returns no error the stored apiKey is `key`, whatever was stored before, and the
proxy and transport-settings fields are those of the root before the call. -/
theorem SetApiKey_error_iff_and_overwrites
    (cli : OpsGenieClient ClientProxyConfiguration HttpTransportSettings)
    (key : String) :
    ((SetApiKey cli key).2 ≠ none ↔ key = "") ∧
    ((SetApiKey cli key).2 = none →
      (SetApiKey cli key).1.apiKey = key ∧
      (SetApiKey cli key).1.proxy = cli.proxy ∧
      (SetApiKey cli key).1.httpTransportSettings = cli.httpTransportSettings) := by
  by_cases h : key = "" <;> simp [SetApiKey, h]

/-- C3 at a concrete root: re-setting the key of a root that already stores `abc`
succeeds and overwrites it, and setting the empty key fails. -/
theorem SetApiKey_error_iff_and_overwrites_witness :
    (((SetApiKey sampleRoot "xyz").2 ≠ none ↔ "xyz" = "") ∧
      ((SetApiKey sampleRoot "xyz").2 = none →
        (SetApiKey sampleRoot "xyz").1.apiKey = "xyz" ∧
        (SetApiKey sampleRoot "xyz").1.proxy = sampleRoot.proxy ∧
        (SetApiKey sampleRoot "xyz").1.httpTransportSettings =
          sampleRoot.httpTransportSettings)) ∧
    (SetApiKey sampleRoot "xyz").2 = none ∧
    (SetApiKey sampleRoot "xyz").1.apiKey = "xyz" ∧
    (SetApiKey sampleRoot "").2 ≠ none :=
  ⟨SetApiKey_error_iff_and_overwrites sampleRoot "xyz", by decide, by decide, by decide⟩

/-- C4: `SetApiKey("")` returns an error and leaves the root as it was: the stored
apiKey is the one stored before, and each derivation gives after the call the same
client and error as before it. -/
theorem SetApiKey_empty_fails_and_keeps_state
    (cli : OpsGenieClient ClientProxyConfiguration HttpTransportSettings) :
    (SetApiKey cli "").2 ≠ none ∧
    (SetApiKey cli "").1 = cli ∧
    (SetApiKey cli "").1.apiKey = cli.apiKey ∧
    (Alert ToString (SetApiKey cli "").1).2 = (Alert ToString cli).2 ∧
    (Heartbeat ToString (SetApiKey cli "").1).2 = (Heartbeat ToString cli).2 ∧
    (Integration ToString (SetApiKey cli "").1).2 = (Integration ToString cli).2 ∧
    (Policy ToString (SetApiKey cli "").1).2 = (Policy ToString cli).2 := by
  have h : (SetApiKey cli "").1 = cli := by simp [SetApiKey]
  refine ⟨by simp [SetApiKey], h, ?_, ?_, ?_, ?_, ?_⟩ <;> rw [h]

/-- C5: for a non-empty `k`, `SetApiKey(k)` returns no error on any root, and each
of the four derivations on the root after the call returns no error and a client
whose apiKey is `k`. -/
theorem SetApiKey_then_derive_succeeds
    (cli : OpsGenieClient ClientProxyConfiguration HttpTransportSettings)
    (k : String) (hk : k ≠ "") :
    (SetApiKey cli k).2 = none ∧
    ((Alert ToString (SetApiKey cli k).1).2.2 = none ∧
      ∃ c, (Alert ToString (SetApiKey cli k).1).2.1 = some c ∧ c.apiKey = k) ∧
    ((Heartbeat ToString (SetApiKey cli k).1).2.2 = none ∧
      ∃ c, (Heartbeat ToString (SetApiKey cli k).1).2.1 = some c ∧ c.apiKey = k) ∧
    ((Integration ToString (SetApiKey cli k).1).2.2 = none ∧
      ∃ c, (Integration ToString (SetApiKey cli k).1).2.1 = some c ∧ c.apiKey = k) ∧
    ((Policy ToString (SetApiKey cli k).1).2.2 = none ∧
      ∃ c, (Policy ToString (SetApiKey cli k).1).2.1 = some c ∧ c.apiKey = k) := by
  obtain ⟨proxy, settings, key⟩ := cli
  cases proxy <;>
    simp [SetApiKey, Alert, Heartbeat, Integration, Policy, OpsGenieAlertClient.new,
      OpsGenieHeartbeatClient.new, OpsGenieIntegrationClient.new, OpsGeniePolicyClient.new, hk]

/-- C5 at concrete roots: the key `key1` set on the zero-value root, which is
unconfigured, makes `Alert` succeed with apiKey `key1`. -/
theorem SetApiKey_then_derive_succeeds_witness :
    "key1" ≠ "" ∧
    ((SetApiKey sampleNew "key1").2 = none ∧
      ((Alert SampleProxy.ToString (SetApiKey sampleNew "key1").1).2.2 = none ∧
        ∃ c, (Alert SampleProxy.ToString (SetApiKey sampleNew "key1").1).2.1 = some c ∧
          c.apiKey = "key1") ∧
      ((Heartbeat SampleProxy.ToString (SetApiKey sampleNew "key1").1).2.2 = none ∧
        ∃ c, (Heartbeat SampleProxy.ToString (SetApiKey sampleNew "key1").1).2.1 =
            some c ∧ c.apiKey = "key1") ∧
      ((Integration SampleProxy.ToString (SetApiKey sampleNew "key1").1).2.2 = none ∧
        ∃ c, (Integration SampleProxy.ToString (SetApiKey sampleNew "key1").1).2.1 =
            some c ∧ c.apiKey = "key1") ∧
      ((Policy SampleProxy.ToString (SetApiKey sampleNew "key1").1).2.2 = none ∧
        ∃ c, (Policy SampleProxy.ToString (SetApiKey sampleNew "key1").1).2.1 =
            some c ∧ c.apiKey = "key1")) :=
  ⟨by decide, SetApiKey_then_derive_succeeds SampleProxy.ToString sampleNew "key1"
    (by decide)⟩

/-- C6: starting from the zero-value root, after any finite sequence of calls in
which no `SetApiKey` call returned a nil error, each of `Alert`, `Heartbeat`,
`Integration` and `Policy` returns an error and a nil client. -/
theorem derive_fails_before_SetApiKey_succeeds
    (calls : List (Call ClientProxyConfiguration HttpTransportSettings))
    (h : ∀ r ∈ (run ToString OpsGenieClient.new calls).2, r ≠ Return.SetApiKey none) :
    ((Alert ToString (run ToString OpsGenieClient.new calls).1).2.2 ≠ none ∧
      (Alert ToString (run ToString OpsGenieClient.new calls).1).2.1 = none) ∧
    ((Heartbeat ToString (run ToString OpsGenieClient.new calls).1).2.2 ≠ none ∧
      (Heartbeat ToString (run ToString OpsGenieClient.new calls).1).2.1 = none) ∧
    ((Integration ToString (run ToString OpsGenieClient.new calls).1).2.2 ≠ none ∧
      (Integration ToString (run ToString OpsGenieClient.new calls).1).2.1 = none) ∧
    ((Policy ToString (run ToString OpsGenieClient.new calls).1).2.2 ≠ none ∧
      (Policy ToString (run ToString OpsGenieClient.new calls).1).2.1 = none) := by
  have hk := run_apiKey_empty ToString calls OpsGenieClient.new rfl h
  simp [Alert, Heartbeat, Integration, Policy, hk]

/-- C6 at a concrete sequence: proxy and transport setters, two rejected
`SetApiKey("")` calls and three derivation attempts. -/
theorem derive_fails_before_SetApiKey_succeeds_witness :
    (∀ r ∈ (run SampleProxy.ToString OpsGenieClient.new sampleCallsNoKey).2,
      r ≠ Return.SetApiKey none) ∧
    (((Alert SampleProxy.ToString
          (run SampleProxy.ToString OpsGenieClient.new sampleCallsNoKey).1).2.2 ≠ none ∧
        (Alert SampleProxy.ToString
          (run SampleProxy.ToString OpsGenieClient.new sampleCallsNoKey).1).2.1 = none) ∧
      ((Heartbeat SampleProxy.ToString
          (run SampleProxy.ToString OpsGenieClient.new sampleCallsNoKey).1).2.2 ≠ none ∧
        (Heartbeat SampleProxy.ToString
          (run SampleProxy.ToString OpsGenieClient.new sampleCallsNoKey).1).2.1 = none) ∧
      ((Integration SampleProxy.ToString
          (run SampleProxy.ToString OpsGenieClient.new sampleCallsNoKey).1).2.2 ≠ none ∧
        (Integration SampleProxy.ToString
          (run SampleProxy.ToString OpsGenieClient.new sampleCallsNoKey).1).2.1 = none) ∧
      ((Policy SampleProxy.ToString
          (run SampleProxy.ToString OpsGenieClient.new sampleCallsNoKey).1).2.2 ≠ none ∧
        (Policy SampleProxy.ToString
          (run SampleProxy.ToString OpsGenieClient.new sampleCallsNoKey).1).2.1 = none)) :=
  ⟨by decide,
    derive_fails_before_SetApiKey_succeeds SampleProxy.ToString sampleCallsNoKey (by decide)⟩

/-- C7: from an Unconfigured root (empty apiKey) the only step that ends in a
Configured root (non-empty apiKey) is `SetApiKey` with a non-empty argument, which
does end in one; `SetClientProxyConfiguration`, `SetHttpTransportSettings`,
`SetApiKey("")` and the four derivations end in an Unconfigured root. -/
theorem only_SetApiKey_leaves_Unconfigured
    (cli : OpsGenieClient ClientProxyConfiguration HttpTransportSettings)
    (h : Unconfigured cli) :
    (∀ call, Configured (step ToString cli call).1 →
      ∃ k, call = Call.SetApiKey k ∧ k ≠ "") ∧
    (∀ k, k ≠ "" → Configured (SetApiKey cli k).1) ∧
    (∀ conf, Unconfigured (SetClientProxyConfiguration cli conf)) ∧
    (∀ settings, Unconfigured (SetHttpTransportSettings cli settings)) ∧
    Unconfigured (SetApiKey cli "").1 ∧
    Unconfigured (Alert ToString cli).1 ∧
    Unconfigured (Heartbeat ToString cli).1 ∧
    Unconfigured (Integration ToString cli).1 ∧
    Unconfigured (Policy ToString cli).1 := by
  unfold Unconfigured at h
  refine ⟨?_, ?_, ?_, ?_, ?_, ?_, ?_, ?_, ?_⟩
  · intro call hc
    cases call with
    | SetApiKey key =>
      refine ⟨key, rfl, ?_⟩
      intro hk
      simp [Configured, step, SetApiKey, hk, h] at hc
    | _ =>
      simp [Configured, step, SetClientProxyConfiguration, SetHttpTransportSettings, Alert,
        Heartbeat, Integration, Policy, h] at hc
  · intro k hk
    simp [Configured, SetApiKey, hk]
  · intro conf
    simp [Unconfigured, SetClientProxyConfiguration, h]
  · intro settings
    simp [Unconfigured, SetHttpTransportSettings, h]
  · simp [Unconfigured, SetApiKey, h]
  · simp [Unconfigured, Alert, h]
  · simp [Unconfigured, Heartbeat, h]
  · simp [Unconfigured, Integration, h]
  · simp [Unconfigured, Policy, h]

/-- C7 at the zero-value root, which is Unconfigured. -/
theorem only_SetApiKey_leaves_Unconfigured_witness :
    Unconfigured sampleNew ∧
    ((∀ call, Configured (step SampleProxy.ToString sampleNew call).1 →
        ∃ k, call = Call.SetApiKey k ∧ k ≠ "") ∧
      (∀ k, k ≠ "" → Configured (SetApiKey sampleNew k).1) ∧
      (∀ conf, Unconfigured (SetClientProxyConfiguration sampleNew conf)) ∧
      (∀ settings, Unconfigured (SetHttpTransportSettings sampleNew settings)) ∧
      Unconfigured (SetApiKey sampleNew "").1 ∧
      Unconfigured (Alert SampleProxy.ToString sampleNew).1 ∧
      Unconfigured (Heartbeat SampleProxy.ToString sampleNew).1 ∧
      Unconfigured (Integration SampleProxy.ToString sampleNew).1 ∧
      Unconfigured (Policy SampleProxy.ToString sampleNew).1) :=
  ⟨by decide, only_SetApiKey_leaves_Unconfigured SampleProxy.ToString sampleNew (by decide)⟩

/-- C8: each of `Alert`, `Heartbeat`, `Integration` and `Policy`, whether it returns
an error or not, leaves the root as it was (same apiKey, proxy and transport
settings); a Configured root is still Configured after any derivation and any
further derivation on it returns a client and no error. -/
theorem derive_keeps_root
    (cli : OpsGenieClient ClientProxyConfiguration HttpTransportSettings) :
    ((Alert ToString cli).1 = cli ∧ (Heartbeat ToString cli).1 = cli ∧
      (Integration ToString cli).1 = cli ∧ (Policy ToString cli).1 = cli) ∧
    (∀ d : Call ClientProxyConfiguration HttpTransportSettings, d.isDerivation = true →
      (step ToString cli d).1.apiKey = cli.apiKey ∧
      (step ToString cli d).1.proxy = cli.proxy ∧
      (step ToString cli d).1.httpTransportSettings = cli.httpTransportSettings) ∧
    (Configured cli →
      ∀ d1 d2 : Call ClientProxyConfiguration HttpTransportSettings,
        d1.isDerivation = true → d2.isDerivation = true →
        Configured (step ToString cli d1).1 ∧
        (step ToString (step ToString cli d1).1 d2).2.err = none ∧
        (step ToString (step ToString cli d1).1 d2).2.client ≠ none) := by
  have hA : (Alert ToString cli).1 = cli := by
    by_cases h : cli.apiKey = "" <;> simp [Alert, h]
  have hH : (Heartbeat ToString cli).1 = cli := by
    by_cases h : cli.apiKey = "" <;> simp [Heartbeat, h]
  have hI : (Integration ToString cli).1 = cli := by
    by_cases h : cli.apiKey = "" <;> simp [Integration, h]
  have hP : (Policy ToString cli).1 = cli := by
    by_cases h : cli.apiKey = "" <;> simp [Policy, h]
  have hstep : ∀ d : Call ClientProxyConfiguration HttpTransportSettings,
      d.isDerivation = true → (step ToString cli d).1 = cli := by
    intro d hd
    cases d <;> simp [Call.isDerivation] at hd <;> simp [step, hA, hH, hI, hP]
  refine ⟨⟨hA, hH, hI, hP⟩, ?_, ?_⟩
  · intro d hd
    rw [hstep d hd]
    exact ⟨rfl, rfl, rfl⟩
  · intro hc d1 d2 hd1 hd2
    rw [hstep d1 hd1]
    refine ⟨hc, ?_⟩
    unfold Configured at hc
    obtain ⟨proxy, settings, key⟩ := cli
    cases d2 <;> simp [Call.isDerivation] at hd2 <;> cases proxy <;>
      simp_all [step, Alert, Heartbeat, Integration, Policy, Return.err, Return.client]

/-- C8 at a concrete Configured root: `Alert` followed by `Policy`. -/
theorem derive_keeps_root_witness :
    Configured sampleRoot ∧
    (Alert SampleProxy.ToString sampleRoot).1 = sampleRoot ∧
    Configured (step SampleProxy.ToString sampleRoot Call.Alert).1 ∧
    (step SampleProxy.ToString (step SampleProxy.ToString sampleRoot Call.Alert).1
      Call.Policy).2.err = none ∧
    (step SampleProxy.ToString (step SampleProxy.ToString sampleRoot Call.Alert).1
      Call.Policy).2.client ≠ none :=
  ⟨by decide, (derive_keeps_root SampleProxy.ToString sampleRoot).1.1,
    (derive_keeps_root SampleProxy.ToString sampleRoot).2.2 (by decide) Call.Alert Call.Policy
      rfl rfl⟩

/-- C9: on a Configured root holding a proxy configuration `P`, deriving a client,
then mutating the root, then deriving again hands back in order: a first client
with the root's original apiKey and proxy `P.ToString()`, and a second client with
the new configuration, that is proxy `""` and the same apiKey after
`SetClientProxyConfiguration(nil)`, and the new key with proxy `P.ToString()` after
`SetApiKey` with another non-empty key. The first client's content in the finished
run is the one it got at derivation time. -/
theorem derived_client_is_snapshot
    (cli : OpsGenieClient ClientProxyConfiguration HttpTransportSettings)
    (P : ClientProxyConfiguration) (hc : Configured cli) (hp : cli.proxy = some P)
    (d1 d2 : Call ClientProxyConfiguration HttpTransportSettings)
    (hd1 : d1.isDerivation = true) (hd2 : d2.isDerivation = true) :
    (step ToString cli d1).2.client = some (cli.apiKey, ToString P) ∧
    (run ToString cli [d1, Call.SetClientProxyConfiguration none, d2]).2.map Return.client =
      [some (cli.apiKey, ToString P), none, some (cli.apiKey, "")] ∧
    (∀ k, k ≠ "" →
      (run ToString cli [d1, Call.SetApiKey k, d2]).2.map Return.client =
        [some (cli.apiKey, ToString P), none, some (k, ToString P)]) := by
  unfold Configured at hc
  obtain ⟨proxy, settings, key⟩ := cli
  simp only at hc hp
  subst hp
  cases d1 <;> simp [Call.isDerivation] at hd1 <;>
    cases d2 <;> simp [Call.isDerivation] at hd2 <;>
      simp_all [run, step, Alert, Heartbeat, Integration, Policy, SetClientProxyConfiguration,
        SetApiKey, Return.client, OpsGenieAlertClient.new, OpsGenieHeartbeatClient.new,
        OpsGenieIntegrationClient.new, OpsGeniePolicyClient.new]

/-- C9 at a concrete root: apiKey `abc`, proxy serialising to `http://proxy:8080`,
`Alert` before and after the mutation. -/
theorem derived_client_is_snapshot_witness :
    Configured sampleRoot ∧ sampleRoot.proxy = some ⟨"proxy", "8080"⟩ ∧
    Call.isDerivation (Call.Alert : Call SampleProxy Nat) = true ∧
    ((step SampleProxy.ToString sampleRoot Call.Alert).2.client =
        some (sampleRoot.apiKey, SampleProxy.ToString ⟨"proxy", "8080"⟩) ∧
      (run SampleProxy.ToString sampleRoot
          [Call.Alert, Call.SetClientProxyConfiguration none, Call.Alert]).2.map Return.client =
        [some (sampleRoot.apiKey, SampleProxy.ToString ⟨"proxy", "8080"⟩), none,
          some (sampleRoot.apiKey, "")] ∧
      (∀ k, k ≠ "" →
        (run SampleProxy.ToString sampleRoot
            [Call.Alert, Call.SetApiKey k, Call.Alert]).2.map Return.client =
          [some (sampleRoot.apiKey, SampleProxy.ToString ⟨"proxy", "8080"⟩), none,
            some (k, SampleProxy.ToString ⟨"proxy", "8080"⟩)])) ∧
    (run SampleProxy.ToString sampleRoot
        [Call.Alert, Call.SetClientProxyConfiguration none, Call.Alert]).2.map Return.client =
      [some ("abc", "http://proxy:8080"), none, some ("abc", "")] :=
  ⟨by decide, rfl, rfl,
    derived_client_is_snapshot SampleProxy.ToString sampleRoot ⟨"proxy", "8080"⟩ (by decide) rfl
      Call.Alert Call.Alert rfl rfl,
    by decide⟩

/-- C10: on a Configured root, calling the same derivation twice in a row returns
two clients with equal apiKey and equal proxy. -/
theorem derive_twice_same_content
    (cli : OpsGenieClient ClientProxyConfiguration HttpTransportSettings)
    (hc : Configured cli) :
    (∃ c1 c2, (Alert ToString cli).2.1 = some c1 ∧
      (Alert ToString (Alert ToString cli).1).2.1 = some c2 ∧
      c1.apiKey = c2.apiKey ∧ c1.proxy = c2.proxy) ∧
    (∃ c1 c2, (Heartbeat ToString cli).2.1 = some c1 ∧
      (Heartbeat ToString (Heartbeat ToString cli).1).2.1 = some c2 ∧
      c1.apiKey = c2.apiKey ∧ c1.proxy = c2.proxy) ∧
    (∃ c1 c2, (Integration ToString cli).2.1 = some c1 ∧
      (Integration ToString (Integration ToString cli).1).2.1 = some c2 ∧
      c1.apiKey = c2.apiKey ∧ c1.proxy = c2.proxy) ∧
    (∃ c1 c2, (Policy ToString cli).2.1 = some c1 ∧
      (Policy ToString (Policy ToString cli).1).2.1 = some c2 ∧
      c1.apiKey = c2.apiKey ∧ c1.proxy = c2.proxy) := by
  unfold Configured at hc
  obtain ⟨proxy, settings, key⟩ := cli
  cases proxy <;> simp_all [Alert, Heartbeat, Integration, Policy]

/-- C10 at a concrete Configured root. -/
theorem derive_twice_same_content_witness :
    Configured sampleRoot ∧
    ((∃ c1 c2, (Alert SampleProxy.ToString sampleRoot).2.1 = some c1 ∧
        (Alert SampleProxy.ToString (Alert SampleProxy.ToString sampleRoot).1).2.1 = some c2 ∧
        c1.apiKey = c2.apiKey ∧ c1.proxy = c2.proxy) ∧
      (∃ c1 c2, (Heartbeat SampleProxy.ToString sampleRoot).2.1 = some c1 ∧
        (Heartbeat SampleProxy.ToString (Heartbeat SampleProxy.ToString sampleRoot).1).2.1 =
          some c2 ∧
        c1.apiKey = c2.apiKey ∧ c1.proxy = c2.proxy) ∧
      (∃ c1 c2, (Integration SampleProxy.ToString sampleRoot).2.1 = some c1 ∧
        (Integration SampleProxy.ToString
          (Integration SampleProxy.ToString sampleRoot).1).2.1 = some c2 ∧
        c1.apiKey = c2.apiKey ∧ c1.proxy = c2.proxy) ∧
      (∃ c1 c2, (Policy SampleProxy.ToString sampleRoot).2.1 = some c1 ∧
        (Policy SampleProxy.ToString (Policy SampleProxy.ToString sampleRoot).1).2.1 = some c2 ∧
        c1.apiKey = c2.apiKey ∧ c1.proxy = c2.proxy)) :=
  ⟨by decide, derive_twice_same_content SampleProxy.ToString sampleRoot (by decide)⟩

/-- C11: on every root the four derivations agree: `Alert`, `Heartbeat`,
`Integration` and `Policy` return a nil error on exactly the same roots, and the
clients they return carry the same apiKey and the same proxy string. -/
theorem derivations_agree
    (cli : OpsGenieClient ClientProxyConfiguration HttpTransportSettings) :
    (((Alert ToString cli).2.2 = none ↔ (Heartbeat ToString cli).2.2 = none) ∧
      ((Alert ToString cli).2.2 = none ↔ (Integration ToString cli).2.2 = none) ∧
      ((Alert ToString cli).2.2 = none ↔ (Policy ToString cli).2.2 = none)) ∧
    ((Alert ToString cli).2.1.map (fun c => (c.apiKey, c.proxy)) =
        (Heartbeat ToString cli).2.1.map (fun c => (c.apiKey, c.proxy)) ∧
      (Alert ToString cli).2.1.map (fun c => (c.apiKey, c.proxy)) =
        (Integration ToString cli).2.1.map (fun c => (c.apiKey, c.proxy)) ∧
      (Alert ToString cli).2.1.map (fun c => (c.apiKey, c.proxy)) =
        (Policy ToString cli).2.1.map (fun c => (c.apiKey, c.proxy))) ∧
    (Configured cli →
      ∃ a p, (Alert ToString cli).2.1 = some ⟨a, p⟩ ∧
        (Heartbeat ToString cli).2.1 = some ⟨a, p⟩ ∧
        (Integration ToString cli).2.1 = some ⟨a, p⟩ ∧
        (Policy ToString cli).2.1 = some ⟨a, p⟩) := by
  obtain ⟨proxy, settings, key⟩ := cli
  by_cases h : key = "" <;> cases proxy <;>
    simp [Alert, Heartbeat, Integration, Policy, Configured, h, OpsGenieAlertClient.new,
      OpsGenieHeartbeatClient.new, OpsGenieIntegrationClient.new, OpsGeniePolicyClient.new]

/-- C11 at a concrete Configured root: the four clients all hold `abc` and
`http://proxy:8080`. -/
theorem derivations_agree_witness :
    Configured sampleRoot ∧
    (∃ a p, (Alert SampleProxy.ToString sampleRoot).2.1 = some ⟨a, p⟩ ∧
      (Heartbeat SampleProxy.ToString sampleRoot).2.1 = some ⟨a, p⟩ ∧
      (Integration SampleProxy.ToString sampleRoot).2.1 = some ⟨a, p⟩ ∧
      (Policy SampleProxy.ToString sampleRoot).2.1 = some ⟨a, p⟩) ∧
    (Alert SampleProxy.ToString sampleRoot).2.1 = some ⟨"abc", "http://proxy:8080"⟩ ∧
    (Policy SampleProxy.ToString sampleRoot).2.1 = some ⟨"abc", "http://proxy:8080"⟩ :=
  ⟨by decide, (derivations_agree SampleProxy.ToString sampleRoot).2.2 (by decide),
    by decide, by decide⟩

/-- C12: `SetClientProxyConfiguration` and `SetHttpTransportSettings` accept every
argument, nil included, and hand back no error; afterwards the field they set holds
exactly the argument and the other two fields of the root are as before. -/
theorem proxy_and_transport_setters_store
    (cli : OpsGenieClient ClientProxyConfiguration HttpTransportSettings)
    (conf : Option ClientProxyConfiguration) (settings : Option HttpTransportSettings) :
    ((SetClientProxyConfiguration cli conf).proxy = conf ∧
      (SetClientProxyConfiguration cli conf).httpTransportSettings =
        cli.httpTransportSettings ∧
      (SetClientProxyConfiguration cli conf).apiKey = cli.apiKey ∧
      (step ToString cli (Call.SetClientProxyConfiguration conf)).2.err = none) ∧
    ((SetHttpTransportSettings cli settings).httpTransportSettings = settings ∧
      (SetHttpTransportSettings cli settings).proxy = cli.proxy ∧
      (SetHttpTransportSettings cli settings).apiKey = cli.apiKey ∧
      (step ToString cli (Call.SetHttpTransportSettings settings)).2.err = none) := by
  simp [SetClientProxyConfiguration, SetHttpTransportSettings, step, Return.err]

/-- C13: on the zero-value root the calls `SetApiKey("")`, `Alert()`,
`SetApiKey("key1")`, `Alert()` hand back in order: an error; a nil client and an
error; a nil error; a client with apiKey `key1` and proxy `""` and a nil error. -/
theorem scenario_on_new_root :
    (run ToString
        (OpsGenieClient.new : OpsGenieClient ClientProxyConfiguration HttpTransportSettings)
        [Call.SetApiKey "", Call.Alert, Call.SetApiKey "key1", Call.Alert]).2 =
      [Return.SetApiKey (some (errors.New "API Key can not be empty")),
        Return.Alert none (some (errors.New "API Key should be set first")),
        Return.SetApiKey none,
        Return.Alert (some ⟨"key1", ""⟩) none] := by
  simp [run, step, SetApiKey, Alert, OpsGenieClient.new, OpsGenieAlertClient.new]

/-- C14, as stated, fails: on the zero-value root, whose apiKey is empty, the error
of `Alert` carries the message `API Key should be set first`, which is not the
message `API key should be set first`; the same holds for the other three
derivations. -/
theorem derive_error_message_differs_in_case :
    sampleNew.apiKey = "" ∧
    ((Alert SampleProxy.ToString sampleNew).2.2.map error.text =
        some "API Key should be set first" ∧
      (Alert SampleProxy.ToString sampleNew).2.2.map error.text ≠
        some "API key should be set first") ∧
    (Heartbeat SampleProxy.ToString sampleNew).2.2.map error.text ≠
      some "API key should be set first" ∧
    (Integration SampleProxy.ToString sampleNew).2.2.map error.text ≠
      some "API key should be set first" ∧
    (Policy SampleProxy.ToString sampleNew).2.2.map error.text ≠
      some "API key should be set first" := by
  decide

/-- C14, amended: on a root with an empty apiKey, each of `Alert`, `Heartbeat`,
`Integration` and `Policy` returns an error that carries exactly the message
`API Key should be set first`. -/
theorem derive_error_message
    (cli : OpsGenieClient ClientProxyConfiguration HttpTransportSettings)
    (h : cli.apiKey = "") :
    (Alert ToString cli).2.2.map error.text = some "API Key should be set first" ∧
    (Heartbeat ToString cli).2.2.map error.text = some "API Key should be set first" ∧
    (Integration ToString cli).2.2.map error.text = some "API Key should be set first" ∧
    (Policy ToString cli).2.2.map error.text = some "API Key should be set first" := by
  simp [Alert, Heartbeat, Integration, Policy, h, errors.New]

/-- C14, amended, at the zero-value root. -/
theorem derive_error_message_witness :
    sampleNew.apiKey = "" ∧
    ((Alert SampleProxy.ToString sampleNew).2.2.map error.text =
        some "API Key should be set first" ∧
      (Heartbeat SampleProxy.ToString sampleNew).2.2.map error.text =
        some "API Key should be set first" ∧
      (Integration SampleProxy.ToString sampleNew).2.2.map error.text =
        some "API Key should be set first" ∧
      (Policy SampleProxy.ToString sampleNew).2.2.map error.text =
        some "API Key should be set first") :=
  ⟨by decide, derive_error_message SampleProxy.ToString sampleNew (by decide)⟩

/-- C15: two roots with the same apiKey and the same proxy configuration get the
same result (same client, same error) from each of `Alert`, `Heartbeat`,
`Integration` and `Policy`, whatever their transport settings are; in particular
setting transport settings on a root changes no derivation result. -/
theorem derive_ignores_transport_settings
    (cli1 cli2 : OpsGenieClient ClientProxyConfiguration HttpTransportSettings)
    (hk : cli1.apiKey = cli2.apiKey) (hp : cli1.proxy = cli2.proxy) :
    ((Alert ToString cli1).2 = (Alert ToString cli2).2 ∧
      (Heartbeat ToString cli1).2 = (Heartbeat ToString cli2).2 ∧
      (Integration ToString cli1).2 = (Integration ToString cli2).2 ∧
      (Policy ToString cli1).2 = (Policy ToString cli2).2) ∧
    (∀ settings,
      (Alert ToString (SetHttpTransportSettings cli1 settings)).2 = (Alert ToString cli1).2 ∧
      (Heartbeat ToString (SetHttpTransportSettings cli1 settings)).2 =
        (Heartbeat ToString cli1).2 ∧
      (Integration ToString (SetHttpTransportSettings cli1 settings)).2 =
        (Integration ToString cli1).2 ∧
      (Policy ToString (SetHttpTransportSettings cli1 settings)).2 =
        (Policy ToString cli1).2) := by
  obtain ⟨proxy1, settings1, key1⟩ := cli1
  obtain ⟨proxy2, settings2, key2⟩ := cli2
  simp only at hk hp
  subst hk hp
  refine ⟨?_, fun settings => ?_⟩ <;>
    by_cases h : key1 = "" <;>
      simp [Alert, Heartbeat, Integration, Policy, SetHttpTransportSettings, h]

/-- C15 at two concrete roots that differ in their transport settings only. -/
theorem derive_ignores_transport_settings_witness :
    sampleRoot.apiKey = sampleRootWithSettings.apiKey ∧
    sampleRoot.proxy = sampleRootWithSettings.proxy ∧
    sampleRoot.httpTransportSettings ≠ sampleRootWithSettings.httpTransportSettings ∧
    (Alert SampleProxy.ToString sampleRoot).2 =
      (Alert SampleProxy.ToString sampleRootWithSettings).2 ∧
    (Heartbeat SampleProxy.ToString sampleRoot).2 =
      (Heartbeat SampleProxy.ToString sampleRootWithSettings).2 ∧
    (Integration SampleProxy.ToString sampleRoot).2 =
      (Integration SampleProxy.ToString sampleRootWithSettings).2 ∧
    (Policy SampleProxy.ToString sampleRoot).2 =
      (Policy SampleProxy.ToString sampleRootWithSettings).2 :=
  ⟨rfl, rfl, by decide,
    (derive_ignores_transport_settings SampleProxy.ToString sampleRoot sampleRootWithSettings
      rfl rfl).1⟩

/-- C16: Configured is absorbing. No call (`SetApiKey` with any argument,
`SetClientProxyConfiguration`, `SetHttpTransportSettings`, or a derivation) and no
finite sequence of calls takes a root with a non-empty apiKey to a root with an
empty apiKey; hence once a derivation has returned a nil error, every derivation
after any further sequence of calls on that root returns a client and a nil error. -/
theorem Configured_is_absorbing
    (cli : OpsGenieClient ClientProxyConfiguration HttpTransportSettings) :
    (Configured cli → ∀ call, Configured (step ToString cli call).1) ∧
    (Configured cli → ∀ calls, Configured (run ToString cli calls).1) ∧
    (∀ d : Call ClientProxyConfiguration HttpTransportSettings,
      d.isDerivation = true → (step ToString cli d).2.err = none →
      ∀ (calls : List (Call ClientProxyConfiguration HttpTransportSettings))
        (d2 : Call ClientProxyConfiguration HttpTransportSettings),
        d2.isDerivation = true →
        (step ToString (run ToString (step ToString cli d).1 calls).1 d2).2.err = none ∧
        (step ToString (run ToString (step ToString cli d).1 calls).1 d2).2.client ≠
          none) := by
  refine ⟨fun hc call => step_apiKey_ne_empty ToString cli call hc,
    fun hc calls => run_apiKey_ne_empty ToString calls cli hc, ?_⟩
  intro d hd hs calls d2 hd2
  have hc : cli.apiKey ≠ "" := by
    intro h
    cases d <;> simp [Call.isDerivation] at hd <;>
      simp [step, Alert, Heartbeat, Integration, Policy, Return.err, h] at hs
  have h1 := run_apiKey_ne_empty ToString calls _ (step_apiKey_ne_empty ToString cli d hc)
  generalize (run ToString (step ToString cli d).1 calls).1 = cli2 at h1 ⊢
  obtain ⟨proxy, settings, key⟩ := cli2
  cases d2 <;> simp [Call.isDerivation] at hd2 <;> cases proxy <;>
    simp_all [step, Alert, Heartbeat, Integration, Policy, Return.err, Return.client]

/-- C16 at a concrete Configured root: after `Alert` has succeeded, a sequence with
setter calls and rejected and accepted `SetApiKey` calls leaves `Policy`
succeeding. -/
theorem Configured_is_absorbing_witness :
    Configured sampleRoot ∧
    (step SampleProxy.ToString sampleRoot Call.Alert).2.err = none ∧
    Configured (run SampleProxy.ToString sampleRoot sampleCallsTwoKeys).1 ∧
    (step SampleProxy.ToString
        (run SampleProxy.ToString (step SampleProxy.ToString sampleRoot Call.Alert).1
          sampleCallsTwoKeys).1 Call.Policy).2.err = none ∧
    (step SampleProxy.ToString
        (run SampleProxy.ToString (step SampleProxy.ToString sampleRoot Call.Alert).1
          sampleCallsTwoKeys).1 Call.Policy).2.client ≠ none :=
  ⟨by decide, by decide,
    (Configured_is_absorbing SampleProxy.ToString sampleRoot).2.1 (by decide)
      sampleCallsTwoKeys,
    (Configured_is_absorbing SampleProxy.ToString sampleRoot).2.2 Call.Alert rfl (by decide)
      sampleCallsTwoKeys Call.Policy rfl⟩

/-- C17: in the run of any finite sequence of calls on the zero-value root, a
client handed back at position `i` has a non-empty apiKey, and that apiKey is the
argument of the most recent `SetApiKey` call that returned a nil error among the
calls before position `i` (rejected `SetApiKey` calls and proxy or transport
setter calls in between do not change it). -/
theorem derived_apiKey_is_last_succeeded_key
    (calls : List (Call ClientProxyConfiguration HttpTransportSettings))
    (i : Nat) (r : Return) (a p : String)
    (hr : (run ToString OpsGenieClient.new calls).2[i]? = some r)
    (hc : r.client = some (a, p)) :
    a ≠ "" ∧
    lastSucceededKey ((calls.zip (run ToString OpsGenieClient.new calls).2).take i) =
      some a := by
  have h := run_client_lastSucceededKey ToString calls OpsGenieClient.new i r a p hr hc
  refine ⟨h.1, ?_⟩
  have h2 := h.2
  generalize lastSucceededKey
    ((calls.zip (run ToString OpsGenieClient.new calls).2).take i) = l at h2 ⊢
  cases l with
  | some key => exact h2
  | none => simp [storedKey, OpsGenieClient.new] at h2

/-- C17 at a concrete sequence: `k1` is set, then `k2`, then `SetApiKey("")` is
rejected and a transport setter runs; the `Heartbeat` at position 6 hands back a
client with apiKey `k2`. -/
theorem derived_apiKey_is_last_succeeded_key_witness :
    (run SampleProxy.ToString OpsGenieClient.new sampleCallsTwoKeys).2[6]? =
      some (Return.Heartbeat (some ⟨"k2", "http://proxy:8080"⟩) none) ∧
    (Return.Heartbeat (some ⟨"k2", "http://proxy:8080"⟩) none).client =
      some ("k2", "http://proxy:8080") ∧
    ("k2" ≠ "" ∧
      lastSucceededKey
          ((sampleCallsTwoKeys.zip
            (run SampleProxy.ToString OpsGenieClient.new sampleCallsTwoKeys).2).take 6) =
        some "k2") :=
  ⟨by decide, rfl,
    derived_apiKey_is_last_succeeded_key SampleProxy.ToString sampleCallsTwoKeys 6
      (Return.Heartbeat (some ⟨"k2", "http://proxy:8080"⟩) none) "k2" "http://proxy:8080"
      (by decide) rfl⟩

end Theorems

end client
